import Mathlib

/-!
# Verification of the navi-website documentation app (`src/App.js`)

Shallow embedding of the rendering logic in `src/App.js`:

* the fixed extension→language table `languages` and language→grammar table
  `grammars`;
* the `Demoboard` documentation component: active-filename selection
  (`editorPathname || Object.keys(sources)[0]`), extension extraction
  (`filename.split('.').reverse()[0]`), language/grammar resolution, and the
  call to the external highlighter whose result is injected as HTML;
* the inline `code` component, which injects `highlightedSource` verbatim;
* the busy-indicator flag `!!loadingRoute`;
* the not-found boundary, whose fallback content (`<h1>Not Found</h1>`) is the
  only part supplied by this repository.

JavaScript objects are embedded as insertion-ordered association lists with
`Option`-valued lookup (`undefined` ↦ `none`).  Points where the real render
path would raise a `TypeError` (calling a method on `undefined`, or handing
`undefined` to a collaborator that requires a string) are embedded as `none`
results of an `Option`-valued renderer.
-/

namespace NaviWebsite

/-- JS object property read: `m[k]` is the value at key `k`, or `undefined`
(`none`) when the key is absent.  Keys of an object literal are unique, so
first-match lookup agrees with JS semantics. -/
def objGet (m : List (String × String)) (k : String) : Option String :=
  match m with
  | [] => none
  | (k2, v) :: rest => if k2 = k then some v else objGet rest k

/-- `Object.keys(m)`: the keys in insertion order. -/
def objKeys (m : List (String × String)) : List String :=
  m.map Prod.fst

/-- The extension→language table from `src/App.js` lines 7–12. -/
def languages : List (String × String) :=
  [("jsx", "jsx"), ("js", "jsx"), ("html", "markup"), ("css", "css")]

/-- The language→grammar table from `src/App.js` lines 13–17. -/
def grammars : List (String × String) :=
  [("jsx", "javascript"), ("html", "html"), ("css", "css")]

/-- JS `String.prototype.split` with a one-character separator, on the
character list of the string.  `"".split(sep)` is `[""]`; a trailing or
leading separator produces an empty field, exactly as in JS. -/
def jsSplit (sep : Char) : List Char → List (List Char)
  | [] => [[]]
  | c :: cs =>
    match jsSplit sep cs with
    | [] => [[]]
    | h :: t => if c = sep then [] :: h :: t else (c :: h) :: t

/-- `filename.split('.').reverse()[0]` from `src/App.js` line 26: the last
`'.'`-separated segment of the filename.  `split` never yields an empty
array, so index `0` of the reversed array is always defined; the `headD`
default is unreachable. -/
def extensionOf (filename : String) : String :=
  String.mk (((jsSplit '.' filename.data).reverse).headD [])

/-- `src/App.js` lines 27 and 37: `language = languages[extension]` and the
grammar identifier `grammars[language]`.  When `language` is `undefined`, JS
coerces the property key to the string `"undefined"`, which is not a key of
`grammars`, so the grammar is `undefined` too. -/
def resolve (filename : String) : Option String × Option String :=
  (objGet languages (extensionOf filename),
   objGet grammars ((objGet languages (extensionOf filename)).getD "undefined"))

/-- `src/App.js` line 25: `editorPathname || Object.keys(sources)[0]`.
`||` tests truthiness, so an empty-string `editorPathname` also falls back to
the first key; an empty `sources` leaves the filename `undefined` (`none`). -/
def activeFilename (editorPathname : Option String)
    (sources : List (String × String)) : Option String :=
  match editorPathname with
  | some s => if s = "" then (objKeys sources).head? else some s
  | none => (objKeys sources).head?

/-- Modelled from the spec: `Prism.highlight`, the external highlighter that
is consumed but not implemented by this repository (§6: a function
`(sourceText, grammarDefinition, languageLabel) -> highlightedMarkup
(string)`; §4.1/§7: when the grammar is unresolved the rendering degrades to
the plain raw text, and never throws).  The markup produced for a *defined*
grammar is internal to the external library, so the model takes it as the
parameter `hl`, applied to the grammar identifier and the source text; all
theorems below hold for every such `hl`. -/
def prismHighlight (hl : String → String → String) (text : String)
    (grammar : Option String) : String :=
  match grammar with
  | none => text
  | some g => hl g text

/-- The data rendered by the `Demoboard` component: the resolved filename,
language and grammar, the source text handed to the highlighter, the
`className` of the `<pre>` element, the forwarded `id`/`style`, and the
markup injected via `dangerouslySetInnerHTML`. -/
structure RenderedDemoboard where
  filename : String
  language : Option String
  grammar : Option String
  sourceText : String
  preClassName : String
  codeId : Option String
  codeStyle : Option String
  html : String
deriving DecidableEq

/-- The `Demoboard` component of `src/App.js` lines 24–44.  A `none` result
marks a render-time failure: either the active filename is `undefined`
(empty `sources` with no `editorPathname`, so `filename.split` raises a
`TypeError`), or `sources[filename]` is `undefined`, so the external
highlighter — which per spec §6 requires a source *string* — has no text to
work on.  `'language-'+language` with an `undefined` language yields the JS
string `"language-undefined"`. -/
def Demoboard (hl : String → String → String) (editorPathname : Option String)
    (sources : List (String × String)) (id style : Option String) :
    Option RenderedDemoboard :=
  (activeFilename editorPathname sources).bind fun filename =>
    (objGet sources filename).map fun text =>
      { filename := filename
        language := (resolve filename).1
        grammar := (resolve filename).2
        sourceText := text
        preClassName := "language-" ++ ((resolve filename).1.getD "undefined")
        codeId := id
        codeStyle := style
        html := prismHighlight hl text (resolve filename).2 }

/-- The data rendered by the inline `code` component: the block and `<pre>`
class names, the forwarded `id`/`style`, and the injected markup. -/
structure RenderedCode where
  blockClassName : String
  preClassName : String
  codeId : Option String
  codeStyle : Option String
  html : String
deriving DecidableEq

/-- The `code` component of `src/App.js` lines 46–57: the `language` prop
defaults to `"text"` when omitted, selects the `<pre>` class, and
`highlightedSource` is injected unchanged via `dangerouslySetInnerHTML`. -/
def code (highlightedSource : String) (language : Option String)
    (id style : Option String) : RenderedCode :=
  { blockClassName := "navi-website-code"
    preClassName := "language-" ++ language.getD "text"
    codeId := id
    codeStyle := style
    html := highlightedSource }

/-- A route object of the external routing library, as observed through
`useLoadingRoute`: an opaque value that is truthy whenever present. -/
structure Route where
  url : String
deriving DecidableEq

/-- `src/App.js` line 59: the `isBusy` prop of the busy indicator is
`!!loadingRoute` — `true` exactly when the current-loading-route signal is
neither `null` nor `undefined`. -/
def busyIndicatorIsBusy (loadingRoute : Option Route) : Bool :=
  loadingRoute.isSome

/-- A rendered node in the not-found region: either a plain element with a
tag and text content, or the view resolved by the routing library. -/
inductive RenderedNode where
  | element (tag : String) (text : String) : RenderedNode
  | resolvedView : RenderedNode
deriving DecidableEq

/-- Modelled from the spec: `NotFoundBoundary`, a capability of the external
routing library (§4.5/§7: it renders its `render` fallback iff the library
signals no matching document for the current URL, and its children — the
resolved view — otherwise).  This repository supplies only the fallback
content. -/
def NotFoundBoundary (noMatchSignal : Bool) (render : Unit → RenderedNode)
    (children : RenderedNode) : RenderedNode :=
  if noMatchSignal then render () else children

/-- `src/App.js` lines 60–62: the app mounts `NotFoundBoundary` with the
fallback `<h1>Not Found</h1>` around the routing library's `<View />`. -/
def appNotFoundRegion (noMatchSignal : Bool) : RenderedNode :=
  NotFoundBoundary noMatchSignal
    (fun _ => RenderedNode.element "h1" "Not Found") RenderedNode.resolvedView

/-! ## Helper lemmas -/

/-- Splitting a string that does not contain the separator yields the single
field holding the whole string. -/
theorem jsSplit_no_sep (sep : Char) (s : List Char) (h : sep ∉ s) :
    jsSplit sep s = [s] := by
  induction s with
  | nil => rfl
  | cons c cs ih =>
    have hc : ¬ c = sep := fun he => h (he ▸ List.mem_cons_self c cs)
    have hcs : sep ∉ cs := fun hm => h (List.mem_cons_of_mem _ hm)
    simp [jsSplit, ih hcs, hc]

/-- Rebuilding a string from its character list is the identity. -/
theorem string_mk_data (s : String) : String.mk s.data = s := by
  cases s
  rfl

/-- JS coerces an `undefined` property key to the string `"undefined"`,
which is not a key of the language→grammar table. -/
theorem grammars_undefined_none : objGet grammars "undefined" = none := by
  decide

/-! ## Claim theorems -/

/-- C1: for every filename whose extension is absent from the
extension→language table, the Demoboard renderer does not fail: the resolved
language (and hence grammar) is `undefined`, and the injected markup is the
raw source text, unhighlighted. -/
theorem demoboard_unknown_extension_renders_plain
    (hl : String → String → String) (ep : Option String)
    (sources : List (String × String)) (id style : Option String)
    (fn text : String)
    (hactive : activeFilename ep sources = some fn)
    (hlang : objGet languages (extensionOf fn) = none)
    (hsrc : objGet sources fn = some text) :
    ∃ r, Demoboard hl ep sources id style = some r
      ∧ r.language = none ∧ r.grammar = none ∧ r.html = text := by
  have h1 : (resolve fn).1 = none := by simp [resolve, hlang]
  have h2 : (resolve fn).2 = none := by
    simp [resolve, hlang, grammars_undefined_none]
  refine ⟨{ filename := fn, language := (resolve fn).1,
            grammar := (resolve fn).2, sourceText := text,
            preClassName := "language-" ++ ((resolve fn).1.getD "undefined"),
            codeId := id, codeStyle := style,
            html := prismHighlight hl text (resolve fn).2 }, ?_, h1, h2, ?_⟩
  · simp [Demoboard, hactive, hsrc]
  · rw [h2]
    rfl

/-- Witness for C1 at the concrete filename `notes.txt`, whose extension
`txt` is not in the table. -/
theorem demoboard_unknown_extension_renders_plain_witness :
    ∃ r, Demoboard (fun _ t => t) none [("notes.txt", "hello")] none none
        = some r ∧ r.language = none ∧ r.grammar = none ∧ r.html = "hello" :=
  demoboard_unknown_extension_renders_plain (fun _ t => t) none
    [("notes.txt", "hello")] none none "notes.txt" "hello"
    (by decide) (by decide) (by decide)

/-- C2 (amended): the active filename equals `editorPathname` when it is
present and non-empty; when it is absent — or the empty string, which JS
`||` treats as absent — the active filename is the first key of `sources`;
and the source text handed to the highlighter is `sources[activeFilename]`. -/
theorem demoboard_active_filename_selection
    (hl : String → String → String) (ep : Option String)
    (sources : List (String × String)) (id style : Option String) :
    (∀ s, ep = some s → s ≠ "" → activeFilename ep sources = some s)
  ∧ ((ep = none ∨ ep = some "") →
      activeFilename ep sources = (objKeys sources).head?)
  ∧ (∀ fn text, activeFilename ep sources = some fn →
      objGet sources fn = some text →
      ∃ r, Demoboard hl ep sources id style = some r
        ∧ r.filename = fn ∧ r.sourceText = text) := by
  refine ⟨?_, ?_, ?_⟩
  · intro s hs hne
    subst hs
    simp [activeFilename, hne]
  · rintro (h | h) <;> subst h <;> simp [activeFilename]
  · intro fn text hactive hsrc
    refine ⟨{ filename := fn, language := (resolve fn).1,
              grammar := (resolve fn).2, sourceText := text,
              preClassName := "language-" ++ ((resolve fn).1.getD "undefined"),
              codeId := id, codeStyle := style,
              html := prismHighlight hl text (resolve fn).2 },
            ?_, rfl, rfl⟩
    simp [Demoboard, hactive, hsrc]

/-- Counterexample to C2 as stated: with `editorPathname` present but equal
to the empty string and `sources = {"a.js": "A"}`, the active filename is
`a.js`, the first key of `sources`, not the present `editorPathname`. -/
theorem demoboard_editorPathname_present_cex :
    activeFilename (some "") [("a.js", "A")] = some "a.js"
      ∧ some "a.js" ≠ some "" := by
  constructor
  · rfl
  · decide

/-- Witness for C2 at `editorPathname = "b.js"`,
`sources = {"a.js": "A", "b.js": "B"}`. -/
theorem demoboard_active_filename_selection_witness :
    activeFilename (some "b.js") [("a.js", "A"), ("b.js", "B")] = some "b.js"
  ∧ ∃ r, Demoboard (fun _ t => t) (some "b.js")
        [("a.js", "A"), ("b.js", "B")] none none = some r
      ∧ r.filename = "b.js" ∧ r.sourceText = "B" := by
  have h := demoboard_active_filename_selection (fun _ t => t) (some "b.js")
    [("a.js", "A"), ("b.js", "B")] none none
  have ha : activeFilename (some "b.js") [("a.js", "A"), ("b.js", "B")]
      = some "b.js" := h.1 "b.js" rfl (by decide)
  exact ⟨ha, h.2.2 "b.js" "B" ha (by decide)⟩

/-- C3: for every filename whose extension is a key of the
extension→language table, the resolved language is the table's configured
label and the grammar is the result of looking that label up in the
language→grammar table; in particular extension `js` resolves to language
`jsx` with grammar `javascript`, and extension `html` resolves to language
`markup` with the grammar given by looking up `markup` in the
language→grammar table. -/
theorem resolve_known_extension (fn : String) :
    (extensionOf fn = "jsx" → resolve fn = (some "jsx", some "javascript"))
  ∧ (extensionOf fn = "js" → resolve fn = (some "jsx", some "javascript"))
  ∧ (extensionOf fn = "html" →
      resolve fn = (some "markup", objGet grammars "markup"))
  ∧ (extensionOf fn = "css" → resolve fn = (some "css", some "css"))
  ∧ (∀ lang, objGet languages (extensionOf fn) = some lang →
      resolve fn = (some lang, objGet grammars lang)) := by
  refine ⟨?_, ?_, ?_, ?_, ?_⟩
  · intro h; simp [resolve, h]; decide
  · intro h; simp [resolve, h]; decide
  · intro h; simp [resolve, h]; decide
  · intro h; simp [resolve, h]; decide
  · intro lang h; simp [resolve, h]

/-- Witness for C3 at the concrete filename `App.js`. -/
theorem resolve_known_extension_witness :
    resolve "App.js" = (some "jsx", some "javascript") :=
  (resolve_known_extension "App.js").2.1 (by decide)

/-- C4: the inline code renderer injects exactly its `highlightedSource`
input — including the empty string — as the entire content payload, with no
transformation applied. -/
theorem code_injects_highlightedSource_exactly (hs : String)
    (lang id style : Option String) :
    (code hs lang id style).html = hs
      ∧ (code "" lang id style).html = "" :=
  ⟨rfl, rfl⟩

/-- C5: the busy indicator's `isBusy` flag is `true` exactly when the
current-loading-route signal is non-null/non-undefined, and over the signal
sequence `null → route → null` it toggles `false → true → false`. -/
theorem busyIndicator_tracks_loadingRoute (r : Option Route) :
    (busyIndicatorIsBusy r = true ↔ r ≠ none)
  ∧ (busyIndicatorIsBusy r = false ↔ r = none)
  ∧ (∀ route : Route,
      [busyIndicatorIsBusy none, busyIndicatorIsBusy (some route),
        busyIndicatorIsBusy none] = [false, true, false]) := by
  cases r <;> simp [busyIndicatorIsBusy]

/-- Witness for C5 at a concrete route value. -/
theorem busyIndicator_tracks_loadingRoute_witness :
    busyIndicatorIsBusy (some ⟨"/guides/authenticated-routes"⟩) = true
      ∧ busyIndicatorIsBusy none = false :=
  ⟨(busyIndicator_tracks_loadingRoute
      (some ⟨"/guides/authenticated-routes"⟩)).1.mpr (by simp),
   (busyIndicator_tracks_loadingRoute none).2.1.mpr rfl⟩

/-- Counterexample to C6 as stated: `editorPathname = ""` is present and is
not a key of `sources = {"a.js": "A"}`, yet rendering does not fail — the
empty string is falsy under `||` on line 25, so the renderer silently falls
back to the first key `a.js` and renders it successfully. -/
theorem demoboard_invalid_editorPathname_cex :
    objGet [("a.js", "A")] "" = none
  ∧ Demoboard (fun _ t => t) (some "") [("a.js", "A")] none none
      = some { filename := "a.js", language := some "jsx",
               grammar := some "javascript", sourceText := "A",
               preClassName := "language-jsx", codeId := none,
               codeStyle := none, html := "A" } := by
  decide

/-- C6 (amended): when `editorPathname` is present, non-empty (hence truthy)
and not a key of `sources`, rendering the Demoboard is a reproducible
failure — `sources[filename]` is `undefined`, so the highlighter has no
content — not a silently successful render.  (A present-but-empty
`editorPathname` is falsy and instead falls back to the first key of
`sources`.) -/
theorem demoboard_invalid_editorPathname_fails
    (hl : String → String → String) (ep : String)
    (sources : List (String × String)) (id style : Option String)
    (hne : ep ≠ "") (hmiss : objGet sources ep = none) :
    Demoboard hl (some ep) sources id style = none := by
  have ha : activeFilename (some ep) sources = some ep := by
    simp [activeFilename, hne]
  simp [Demoboard, ha, hmiss]

/-- Witness for C6: `editorPathname = "missing.js"` with
`sources = {"a.js": "A"}`. -/
theorem demoboard_invalid_editorPathname_fails_witness :
    Demoboard (fun _ t => t) (some "missing.js") [("a.js", "A")] none none
      = none :=
  demoboard_invalid_editorPathname_fails (fun _ t => t) "missing.js"
    [("a.js", "A")] none none (by decide) (by decide)

/-- C7: the inline code renderer's `language` label defaults to `"text"`
when omitted, is used only to select the `language-` CSS class, and has no
effect on the injected markup. -/
theorem code_language_only_selects_class (hs l : String)
    (id style : Option String) :
    (code hs none id style).preClassName = "language-text"
  ∧ (code hs (some l) id style).preClassName = "language-" ++ l
  ∧ (code hs (some l) id style).html = (code hs none id style).html
  ∧ (code hs none id style).html = hs :=
  ⟨rfl, rfl, rfl, rfl⟩

/-- C8: the `<h1>Not Found</h1>` fallback supplied by this repository
renders iff the routing library signals no matching document; when a
document matches, the resolved view renders instead. -/
theorem notFound_fallback_iff_signal (b : Bool) :
    (appNotFoundRegion b = RenderedNode.element "h1" "Not Found" ↔ b = true)
  ∧ (b = false → appNotFoundRegion b = RenderedNode.resolvedView) := by
  cases b <;> simp [appNotFoundRegion, NotFoundBoundary]

/-- Witness for C8 at both signal values. -/
theorem notFound_fallback_iff_signal_witness :
    appNotFoundRegion true = RenderedNode.element "h1" "Not Found"
      ∧ appNotFoundRegion false = RenderedNode.resolvedView :=
  ⟨(notFound_fallback_iff_signal true).1.mpr rfl,
   (notFound_fallback_iff_signal false).2 rfl⟩

/-- C9: an `editorPathname` that is present but the empty string is falsy
under JS `||`, so the Demoboard falls back to the first key of `sources`,
exactly as when `editorPathname` is absent. -/
theorem demoboard_empty_editorPathname_falls_back
    (sources : List (String × String)) :
    activeFilename (some "") sources = (objKeys sources).head?
  ∧ activeFilename (some "") sources = activeFilename none sources := by
  constructor <;> simp [activeFilename]

/-- C10: a filename containing no `'.'` is used whole as the extension
lookup key, so a file named exactly `css` resolves to language `css` while
`README` resolves to an undefined language. -/
theorem extension_no_dot_uses_whole_filename (fn : String)
    (h : ('.' : Char) ∉ fn.data) :
    extensionOf fn = fn
  ∧ objGet languages (extensionOf "css") = some "css"
  ∧ objGet languages (extensionOf "README") = none := by
  refine ⟨?_, by decide, by decide⟩
  unfold extensionOf
  rw [jsSplit_no_sep '.' fn.data h]
  simp [string_mk_data]

/-- Witness for C10 at the concrete filenames `README` and `css`. -/
theorem extension_no_dot_uses_whole_filename_witness :
    extensionOf "README" = "README"
  ∧ objGet languages (extensionOf "css") = some "css"
  ∧ objGet languages (extensionOf "README") = none :=
  ⟨(extension_no_dot_uses_whole_filename "README" (by decide)).1,
   (extension_no_dot_uses_whole_filename "README" (by decide)).2.1,
   (extension_no_dot_uses_whole_filename "README" (by decide)).2.2⟩

end NaviWebsite
